import Mathlib

/-!
Verification of the social-share link construction in
`src/components/Pages/Post/Share/Social/Reddit/index.jsx`.

The component builds
`shareUrl = SHARE_REDDIT + '?' + stringify({ url, title: text })`
where `stringify` is `query-string@6.13.8`. With that library's defaults:
  * keys are sorted alphabetically (`options.sort !== false` so `keys.sort()`);
  * values are encoded with `strict-uri-encode`: every byte outside
    `A-Z a-z 0-9 - . _ ~` is written `%HH` with uppercase hex (this is
    `encodeURIComponent` plus encoding of `! ' ( ) *`);
  * a key whose value is `undefined` is dropped from the output;
  * an empty-string value yields `key=`;
  * the encoded pairs are joined with `&`.

JavaScript strings are modelled by their UTF-8 byte sequences
(`List Nat`, each entry `< 256`): `encodeURIComponent`, and hence
`strict-uri-encode`, percent-encodes the UTF-8 bytes of the string, so the
byte level is exactly where the encoding acts.  An ASCII string's bytes are
its code points, computed by `strBytes`.  `undefined` props are `none`.
-/

/-- UTF-8 bytes of an ASCII string (code point = byte for ASCII). -/
def strBytes (s : String) : List Nat := s.toList.map Char.toNat

/-- Bytes left verbatim by `strict-uri-encode`: `A-Z`, `a-z`, `0-9`,
`-` (45), `.` (46), `_` (95), `~` (126). -/
def isUnreservedByte (b : Nat) : Bool :=
  (65 ≤ b && b ≤ 90) || (97 ≤ b && b ≤ 122) || (48 ≤ b && b ≤ 57) ||
  b == 45 || b == 46 || b == 95 || b == 126

/-- Uppercase hexadecimal digit for `n < 16` (as produced by
`encodeURIComponent` / `strict-uri-encode`). -/
def hexDigitChar (n : Nat) : Char :=
  if n < 10 then Char.ofNat (48 + n) else Char.ofNat (55 + n)

/-- Percent-encoding of a single byte: unreserved bytes stand for
themselves, every other byte becomes `%HH`. -/
def encodeByte (b : Nat) : List Char :=
  if isUnreservedByte b then [Char.ofNat b]
  else ['%', hexDigitChar (b / 16), hexDigitChar (b % 16)]

/-- `strict-uri-encode` of a byte string (the encoder `query-string@6.13.8`
applies to every key and value when `encode`/`strict` are at their
defaults). -/
def strictUriEncode (bs : List Nat) : List Char :=
  bs.flatMap encodeByte

/-- Lexicographic comparison on code units: the default comparator of
JavaScript `Array.prototype.sort` (strings compared by UTF-16 code units;
the keys here are ASCII, where code units and code points agree). -/
def charListLt : List Char → List Char → Bool
  | [], [] => false
  | [], _ :: _ => true
  | _ :: _, [] => false
  | a :: as, b :: bs =>
    if a.toNat < b.toNat then true
    else if b.toNat < a.toNat then false
    else charListLt as bs

/-- Key comparison used when sorting the object's keys. -/
def keyLt (a b : String) : Bool := charListLt a.toList b.toList

/-- Insert one key/value pair into a key-sorted association list. -/
def insertByKey (p : String × Option (List Nat)) :
    List (String × Option (List Nat)) → List (String × Option (List Nat))
  | [] => [p]
  | q :: rest => if keyLt q.1 p.1 then q :: insertByKey p rest else p :: q :: rest

/-- Sort an association list by key, as `keys.sort()` does in
`query-string@6.13.8`'s `stringify`. -/
def sortByKey :
    List (String × Option (List Nat)) → List (String × Option (List Nat))
  | [] => []
  | p :: rest => insertByKey p (sortByKey rest)

/-- `.join('&')` on the encoded `key=value` fragments. -/
def joinAmp : List (List Char) → List Char
  | [] => []
  | [x] => x
  | x :: y :: ys => x ++ '&' :: joinAmp (y :: ys)

/-- `query-string@6.13.8` `stringify` restricted to string-or-undefined
values, which is all the Reddit component supplies: sort the keys, drop
`undefined` values, emit `encode(key)=encode(value)` and join with `&`. -/
def stringify (obj : List (String × Option (List Nat))) : List Char :=
  joinAmp ((sortByKey obj).filterMap fun p =>
    p.2.map fun v => strictUriEncode (strBytes p.1) ++ '=' :: strictUriEncode v)

/-- `const SHARE_REDDIT = 'https://www.reddit.com/submit';` -/
def SHARE_REDDIT : List Char := "https://www.reddit.com/submit".toList

/-- The query string built by the component: `stringify({ url, title: text })`
with the object's insertion order `url`, then `title`. -/
def redditQueryString (url text : Option (List Nat)) : List Char :=
  stringify [("url", url), ("title", text)]

/-- `shareUrl = SHARE_REDDIT + '?' + stringify({ url, title: text })`. -/
def redditShareUrl (url text : Option (List Nat)) : List Char :=
  SHARE_REDDIT ++ '?' :: redditQueryString url text

/-- The props the component passes to `ShareButton`. -/
structure ShareButtonProps where
  title : String
  href : List Char
  target : String
  rel : String
  className : String
  deriving Repr, DecidableEq

/-- `ShareSocialReddit({ url, text })`: renders a `ShareButton` whose `href`
is the built share url and whose `target`/`rel` attributes are the literal
constants of the JSX. -/
def ShareSocialReddit (url text : Option (List Nat)) : ShareButtonProps :=
  { title := "Submit to Reddit"
    href := redditShareUrl url text
    target := "_blank"
    rel := "noopener noreferrer"
    className := "reddit" }

/-- Value of a hexadecimal digit character, `none` on a non-hex char. -/
def hexVal (c : Char) : Option Nat :=
  if 48 ≤ c.toNat ∧ c.toNat ≤ 57 then some (c.toNat - 48)
  else if 65 ≤ c.toNat ∧ c.toNat ≤ 70 then some (c.toNat - 55)
  else if 97 ≤ c.toNat ∧ c.toNat ≤ 102 then some (c.toNat - 87)
  else none

/-- Standard percent-decoding back to bytes: `%HH` becomes the byte `HH`,
any other character stands for its own code point; fails on a malformed
escape. -/
def percentDecode : List Char → Option (List Nat)
  | [] => some []
  | c :: cs =>
    if c = '%' then
      match cs with
      | h :: l :: rest =>
        match hexVal h, hexVal l, percentDecode rest with
        | some hv, some lv, some tail => some ((hv * 16 + lv) :: tail)
        | _, _, _ => none
      | _ => none
    else
      (percentDecode cs).map fun tail => c.toNat :: tail

/-- Split a query string at every `&` (parameter separator). -/
def splitOnAmp : List Char → List (List Char)
  | [] => [[]]
  | c :: rest =>
    if c = '&' then [] :: splitOnAmp rest
    else
      match splitOnAmp rest with
      | [] => [[c]]
      | g :: gs => (c :: g) :: gs

/-- Split one `key=value` fragment at its first `=`. -/
def splitEq : List Char → List Char × List Char
  | [] => ([], [])
  | c :: rest =>
    if c = '=' then ([], rest)
    else
      let p := splitEq rest
      (c :: p.1, p.2)

/-- Parse a query string: split on `&`, split each parameter at its first
`=`, percent-decode the value. -/
def parseQuery (cs : List Char) : List (List Char × Option (List Nat)) :=
  (splitOnAmp cs).map fun p => ((splitEq p).1, percentDecode (splitEq p).2)

/-- Error taxonomy of the spec's generalized builder. -/
inductive ShareError where
  | InvalidTarget
  | InvalidRequest
  deriving Repr, DecidableEq

/-- The spec's closed set of supported targets, restricted to the networks
present under `src/` (only the Reddit component is). -/
def supportedTargets : List String := ["reddit"]

/-- Modelled from the spec: the repository has one share component per
network and only the Reddit one is under `src/`; the spec generalizes them
into a single `build(target, request)` dispatching on the closed set of
supported targets and failing with `InvalidTarget` outside it.  That
dispatch exists nowhere in `src/`, so it is modelled from the spec's words
("Fails with `InvalidTarget` when the ShareTarget is not in the supported
set"); the Reddit row delegates to the source-derived `redditShareUrl`. -/
def buildShare (targetId : String) (url text : Option (List Nat)) :
    Except ShareError (List Char) :=
  if targetId ∈ supportedTargets then .ok (redditShareUrl url text)
  else .error ShareError.InvalidTarget

set_option maxRecDepth 4096

lemma hexVal_hexDigitChar : ∀ n, n < 16 → hexVal (hexDigitChar n) = some n := by
  decide

lemma encodeByte_sep_free : ∀ b, b < 256 →
    ('&' ∉ encodeByte b ∧ '=' ∉ encodeByte b) := by
  decide

lemma charOfNat_unreserved : ∀ b, b < 256 → isUnreservedByte b = true →
    (Char.ofNat b ≠ '%' ∧ (Char.ofNat b).toNat = b) := by
  decide

lemma strictUriEncode_nil : strictUriEncode [] = [] := rfl

lemma strictUriEncode_cons (b : Nat) (bs : List Nat) :
    strictUriEncode (b :: bs) = encodeByte b ++ strictUriEncode bs := rfl

lemma percentDecode_cons_ne (c : Char) (cs : List Char) (hc : c ≠ '%') :
    percentDecode (c :: cs) = (percentDecode cs).map fun tail => c.toNat :: tail := by
  rw [percentDecode.eq_def]
  simp [hc]

lemma percentDecode_pct (h l : Char) (cs : List Char) (hv lv : Nat)
    (hh : hexVal h = some hv) (hl : hexVal l = some lv) :
    percentDecode ('%' :: h :: l :: cs) =
      (percentDecode cs).map fun tail => (hv * 16 + lv) :: tail := by
  conv_lhs => rw [percentDecode]
  rw [if_pos rfl]
  cases hdec : percentDecode cs <;> simp [hh, hl, hdec]

lemma percentDecode_encodeByte (b : Nat) (hb : b < 256) (cs : List Char) :
    percentDecode (encodeByte b ++ cs) = (percentDecode cs).map fun tail => b :: tail := by
  by_cases h : isUnreservedByte b = true
  · have hc := charOfNat_unreserved b hb h
    simp only [encodeByte, h, if_pos, List.cons_append, List.nil_append]
    rw [percentDecode_cons_ne _ _ hc.1, hc.2]
  · have h16 : b / 16 < 16 := by omega
    have hm : b % 16 < 16 := by omega
    simp only [encodeByte, h, if_neg, Bool.false_eq_true, not_false_iff,
      List.cons_append, List.nil_append]
    rw [percentDecode_pct _ _ _ _ _ (hexVal_hexDigitChar _ h16) (hexVal_hexDigitChar _ hm)]
    have hb' : b / 16 * 16 + b % 16 = b := by omega
    rw [hb']

lemma percentDecode_strictUriEncode (bs : List Nat) (h : ∀ b ∈ bs, b < 256) :
    percentDecode (strictUriEncode bs) = some bs := by
  induction bs with
  | nil => rfl
  | cons b rest ih =>
    have hb : b < 256 := h b (by simp)
    rw [strictUriEncode_cons, percentDecode_encodeByte b hb,
      ih fun x hx => h x (by simp [hx])]
    rfl

lemma sep_free_strictUriEncode (bs : List Nat) (h : ∀ b ∈ bs, b < 256) :
    '&' ∉ strictUriEncode bs ∧ '=' ∉ strictUriEncode bs := by
  induction bs with
  | nil => simp [strictUriEncode]
  | cons b rest ih =>
    have hb := encodeByte_sep_free b (h b (by simp))
    have ih2 := ih fun x hx => h x (by simp [hx])
    rw [strictUriEncode_cons]
    constructor
    · simp only [List.mem_append]
      rintro (hx | hx)
      · exact hb.1 hx
      · exact ih2.1 hx
    · simp only [List.mem_append]
      rintro (hx | hx)
      · exact hb.2 hx
      · exact ih2.2 hx

lemma splitOnAmp_no_amp (xs : List Char) (h : '&' ∉ xs) : splitOnAmp xs = [xs] := by
  induction xs with
  | nil => rfl
  | cons c rest ih =>
    have hc : c ≠ '&' := fun e => h (by simp [e])
    have hr : '&' ∉ rest := fun hx => h (by simp [hx])
    simp [splitOnAmp, hc, ih hr]

lemma splitOnAmp_append (xs ys : List Char) (h : '&' ∉ xs) :
    splitOnAmp (xs ++ '&' :: ys) = xs :: splitOnAmp ys := by
  induction xs with
  | nil => simp [splitOnAmp]
  | cons c rest ih =>
    have hc : c ≠ '&' := fun e => h (by simp [e])
    have hr : '&' ∉ rest := fun hx => h (by simp [hx])
    simp [splitOnAmp, hc, ih hr]

lemma splitEq_key_value (ks vs : List Char) (h : '=' ∉ ks) :
    splitEq (ks ++ '=' :: vs) = (ks, vs) := by
  induction ks with
  | nil => simp [splitEq]
  | cons c rest ih =>
    have hc : c ≠ '=' := fun e => h (by simp [e])
    have hr : '=' ∉ rest := fun hx => h (by simp [hx])
    simp [splitEq, hc, ih hr]

lemma sortByKey_url_title (u t : Option (List Nat)) :
    sortByKey [("url", u), ("title", t)] = [("title", t), ("url", u)] := by
  have h : keyLt "title" "url" = true := by decide
  simp [sortByKey, insertByKey, h]

lemma sortByKey_title_url (u t : Option (List Nat)) :
    sortByKey [("title", t), ("url", u)] = [("title", t), ("url", u)] := by
  have h : keyLt "url" "title" = false := by decide
  simp [sortByKey, insertByKey, h]

lemma redditQueryString_some (u t : List Nat) :
    redditQueryString (some u) (some t) =
      ("title".toList ++ '=' :: strictUriEncode t) ++
        '&' :: ("url".toList ++ '=' :: strictUriEncode u) := by
  rw [redditQueryString, stringify, sortByKey_url_title]
  simp [joinAmp, strBytes]
  rfl

lemma redditQueryString_none_some (t : List Nat) :
    redditQueryString none (some t) = "title".toList ++ '=' :: strictUriEncode t := by
  rfl

lemma redditQueryString_none_none : redditQueryString none none = [] := rfl

/-- **C1** (corrected): the claim expects
`https://www.reddit.com/submit?url=https%3A%2F%2Fexample.com%2Fpost&title=Hello%20World`
(the `url` parameter first, `title` second), allowing `+` for spaces.
`query-string@6.13.8` sorts the object's keys alphabetically before joining,
so the code emits `title` first and `url` second: the built link differs
from the claim's expected string in both space-encoding conventions. -/
theorem C1_counterexample_param_order :
    redditShareUrl (some (strBytes "https://example.com/post"))
        (some (strBytes "Hello World")) ≠
      "https://www.reddit.com/submit?url=https%3A%2F%2Fexample.com%2Fpost&title=Hello%20World".toList ∧
    redditShareUrl (some (strBytes "https://example.com/post"))
        (some (strBytes "Hello World")) ≠
      "https://www.reddit.com/submit?url=https%3A%2F%2Fexample.com%2Fpost&title=Hello+World".toList := by
  constructor <;> decide

/-- **C1** (amended): for `url = "https://example.com/post"` and
`text = "Hello World"` the built share link is
`https://www.reddit.com/submit?title=Hello%20World&url=https%3A%2F%2Fexample.com%2Fpost`:
the same two percent-encoded parameter values the claim names, with spaces
as `%20`, but with `title` first and `url` second (alphabetical key
order). -/
theorem C1_reddit_example_link :
    redditShareUrl (some (strBytes "https://example.com/post"))
        (some (strBytes "Hello World")) =
      "https://www.reddit.com/submit?title=Hello%20World&url=https%3A%2F%2Fexample.com%2Fpost".toList := by
  rfl

/-- **C2** (confirmed): for every `url` and `text` (byte strings), the built
link splits as the fixed base endpoint, `?`, and a query string; parsing
that query string into `&`-separated `key=value` parameters and
percent-decoding the values yields back exactly the original `text` under
`title` and the original `url` under `url`: encode-then-decode is the
identity on both fields. -/
theorem C2_round_trip (u t : List Nat) (hu : ∀ b ∈ u, b < 256)
    (ht : ∀ b ∈ t, b < 256) :
    redditShareUrl (some u) (some t) =
      SHARE_REDDIT ++ '?' :: redditQueryString (some u) (some t) ∧
    parseQuery (redditQueryString (some u) (some t)) =
      [("title".toList, some t), ("url".toList, some u)] := by
  have het := sep_free_strictUriEncode t ht
  have heu := sep_free_strictUriEncode u hu
  have hA : '&' ∉ "title".toList ++ '=' :: strictUriEncode t := by
    simp only [List.mem_append, List.mem_cons]
    rintro (hx | hx | hx)
    · revert hx; decide
    · exact absurd hx (by decide)
    · exact het.1 hx
  have hB : '&' ∉ "url".toList ++ '=' :: strictUriEncode u := by
    simp only [List.mem_append, List.mem_cons]
    rintro (hx | hx | hx)
    · revert hx; decide
    · exact absurd hx (by decide)
    · exact heu.1 hx
  refine ⟨rfl, ?_⟩
  rw [parseQuery, redditQueryString_some, splitOnAmp_append _ _ hA,
    splitOnAmp_no_amp _ hB]
  simp only [List.map]
  rw [splitEq_key_value _ _ (by decide), splitEq_key_value _ _ (by decide)]
  rw [percentDecode_strictUriEncode t ht, percentDecode_strictUriEncode u hu]

/-- Witness for C2 at a concrete input. -/
theorem C2_round_trip_witness :
    parseQuery (redditQueryString (some (strBytes "https://example.com/post"))
        (some (strBytes "Hello World"))) =
      [("title".toList, some (strBytes "Hello World")),
       ("url".toList, some (strBytes "https://example.com/post"))] :=
  (C2_round_trip (strBytes "https://example.com/post") (strBytes "Hello World")
    (by decide) (by decide)).2

/-- **C3** (confirmed): share-link construction is a pure function of the
props: two invocations on identical `url` and `text` values produce the
same rendered props (in particular the same `href` string); the embedding
is deterministic by construction, matching the side-effect-free source. -/
theorem C3_deterministic (u₁ t₁ u₂ t₂ : Option (List Nat))
    (hu : u₁ = u₂) (ht : t₁ = t₂) :
    ShareSocialReddit u₁ t₁ = ShareSocialReddit u₂ t₂ := by
  rw [hu, ht]

/-- Witness for C3 at a concrete input. -/
theorem C3_deterministic_witness :
    ShareSocialReddit (some (strBytes "https://example.com/post")) none =
      ShareSocialReddit (some (strBytes "https://example.com/post")) none :=
  C3_deterministic _ _ _ _ rfl rfl

/-- **C4** (corrected): the claim says `url = ""` makes the builder fail
with `InvalidRequest` and produce no ShareLink.  The component performs no
validation at all: with an empty `url` it still renders a complete share
link carrying an empty `url=` parameter.  Here, at `url = ""`,
`text = "Hello"`, a full ShareLink is produced. -/
theorem C4_counterexample_empty_url :
    redditShareUrl (some (strBytes "")) (some (strBytes "Hello")) =
      "https://www.reddit.com/submit?title=Hello&url=".toList := by
  rfl

/-- **C4** (amended): with an empty `url` the component does not fail and
no `InvalidRequest` error exists in the code; for every `text` it builds
the share link with an empty-valued `url=` parameter. -/
theorem C4_empty_url_still_builds (t : List Nat) :
    redditShareUrl (some []) (some t) =
      "https://www.reddit.com/submit?title=".toList ++ strictUriEncode t ++
        "&url=".toList := by
  rfl

/-- **C5** (confirmed): every byte of `url` and `text` outside the
unreserved set — in particular `&`, `#`, `?` and non-ASCII bytes — is
percent-encoded, so the query string splits on `&` into exactly the two
parameters Reddit defines (`title` and `url`): no input character
introduces an extra parameter. -/
theorem C5_exactly_two_parameters (u t : List Nat) (hu : ∀ b ∈ u, b < 256)
    (ht : ∀ b ∈ t, b < 256) :
    (splitOnAmp (redditQueryString (some u) (some t))).length = 2 := by
  have het := sep_free_strictUriEncode t ht
  have heu := sep_free_strictUriEncode u hu
  have hA : '&' ∉ "title".toList ++ '=' :: strictUriEncode t := by
    simp only [List.mem_append, List.mem_cons]
    rintro (hx | hx | hx)
    · revert hx; decide
    · exact absurd hx (by decide)
    · exact het.1 hx
  have hB : '&' ∉ "url".toList ++ '=' :: strictUriEncode u := by
    simp only [List.mem_append, List.mem_cons]
    rintro (hx | hx | hx)
    · revert hx; decide
    · exact absurd hx (by decide)
    · exact heu.1 hx
  rw [redditQueryString_some, splitOnAmp_append _ _ hA, splitOnAmp_no_amp _ hB]
  rfl

/-- Witness for C5: `url` containing `?`, `=`, `&` and `#`, `text`
containing `&` and the non-ASCII `café` (UTF-8 bytes 195, 169). -/
theorem C5_exactly_two_parameters_witness :
    (splitOnAmp (redditQueryString
      (some (strBytes "https://x.com/a?b=c&d#e"))
      (some (strBytes "tea & caf" ++ [195, 169])))).length = 2 :=
  C5_exactly_two_parameters (strBytes "https://x.com/a?b=c&d#e")
    (strBytes "tea & caf" ++ [195, 169]) (by decide) (by decide)

/-- **C6** (confirmed): with an empty `text` the component includes the
title parameter with an empty value (`title=`), for every `url`; this is
the one policy the (single) target under `src/` exhibits, uniformly in the
input. -/
theorem C6_empty_text_keeps_empty_title (u : List Nat) :
    redditShareUrl (some u) (some []) =
      "https://www.reddit.com/submit?title=&url=".toList ++ strictUriEncode u := by
  rfl

/-- **C7** (confirmed, against a spec-modelled dispatch): for every target
identifier outside the supported set, `buildShare` fails with
`InvalidTarget` and returns no URL. -/
theorem C7_invalid_target (tgt : String) (u t : Option (List Nat))
    (h : tgt ∉ supportedTargets) :
    buildShare tgt u t = Except.error ShareError.InvalidTarget := by
  rw [buildShare, if_neg h]

/-- Witness for C7 at a concrete unsupported identifier. -/
theorem C7_invalid_target_witness :
    buildShare "myspace" none none = Except.error ShareError.InvalidTarget :=
  C7_invalid_target "myspace" none none (by decide)

/-- **C8** (confirmed): for every `url` and `text` (present or absent) the
rendered share anchor carries `target="_blank"` and
`rel="noopener noreferrer"`: the JSX passes these as literal constants. -/
theorem C8_blank_target_noopener (u t : Option (List Nat)) :
    (ShareSocialReddit u t).target = "_blank" ∧
    (ShareSocialReddit u t).rel = "noopener noreferrer" :=
  ⟨rfl, rfl⟩

/-- **C9** (confirmed): when the `url` prop is `undefined` the component
still produces a share link with no error: `stringify` drops the
`undefined` key, so the `url` parameter is omitted entirely — the link
carries only `title` (or an empty query string when `text` is also
`undefined`). -/
theorem C9_undefined_url_omitted (t : List Nat) :
    (ShareSocialReddit none (some t)).href =
      "https://www.reddit.com/submit?title=".toList ++ strictUriEncode t ∧
    (ShareSocialReddit none none).href =
      "https://www.reddit.com/submit?".toList :=
  ⟨rfl, rfl⟩

/-- **C10** (confirmed): for every `url` and `text` the built link starts
with the fixed prefix `https://www.reddit.com/submit?` followed by the
parameters in alphabetical key order (`title` before `url`), and
`stringify` produces the same output when the object's fields are supplied
in the opposite insertion order. -/
theorem C10_prefix_and_alphabetical_order (u t : List Nat) :
    redditShareUrl (some u) (some t) =
      "https://www.reddit.com/submit?title=".toList ++ strictUriEncode t ++
        "&url=".toList ++ strictUriEncode u ∧
    stringify [("url", some u), ("title", some t)] =
      stringify [("title", some t), ("url", some u)] := by
  constructor
  · rw [redditShareUrl, redditQueryString_some]
    simp [SHARE_REDDIT]
  · rw [stringify, stringify, sortByKey_url_title, sortByKey_title_url]
